import Mathlib

/-!
Verification of the LoRa/L298N tank-controller core: the `Tank` ramp
controller (`tx_bluetooth/TankShift.cpp`), the Bluetooth-to-LoRa gateway
sketch (command handling, safety timeout, `sendLoRaFrame`), and the
frame codec / cipher layer of `common/ControlProtocol.h`.

Machine integers are embedded as `Nat`/`Int` with explicit wrap-around
(`% 2 ^ w`) exactly where the C types wrap: `int16_t` casts, `uint8_t`
counters, `uint32_t` millis arithmetic.
-/

namespace TankControl

/-- The protocol command set (`TankControl::Command` in
`ControlProtocol.h`): Stop, Forward, Backward, Left, Right, SetSpeed. -/
inductive Command where
  | Stop | Forward | Backward | Left | Right | SetSpeed
  deriving Repr, DecidableEq

/-- Modelled from the spec: `ControlProtocol.h` is not under `src/`; the
command enum occupies one byte, so each command is given its wire code
in declaration order. -/
def commandCode : Command → Nat
  | .Stop => 0
  | .Forward => 1
  | .Backward => 2
  | .Left => 3
  | .Right => 4
  | .SetSpeed => 5

/-- The logical control frame: command code, the two unsigned speed
magnitudes (0-255) and the 8-bit sequence number. -/
structure ControlFrame where
  command : Nat
  leftSpeed : Nat
  rightSpeed : Nat
  sequence : Nat
  deriving Repr, DecidableEq

/-- Modelled from the spec: `TankControl::initFrame` of the missing
`ControlProtocol.h` fills the frame fields from its `uint8_t`
arguments; the `% 256` is the `uint8_t` truncation at that boundary. -/
def initFrame (cmd l r seq : Nat) : ControlFrame :=
  ⟨cmd % 256, l % 256, r % 256, seq % 256⟩

/-- Fixed wire size of a frame: one 16-byte cipher block. -/
def kFrameSize : Nat := 16

/-- Modelled from the spec: magic marker and protocol version bytes of
the missing `ControlProtocol.h` (their concrete values are an open
question of the spec; any fixed pair works, both ends agreeing). -/
def kMagic0 : Nat := 0xA5

/-- Second magic byte (see `kMagic0`). -/
def kMagic1 : Nat := 0x5A

/-- Compiled-in protocol version byte (see `kMagic0`). -/
def kProtocolVersion : Nat := 1

/-- CRC-32 polynomial (reflected), as used by the standard CRC32 the
project documentation names for frame integrity. -/
def crc32Poly : Nat := 0xEDB88320

/-- One shift-and-conditionally-xor step of bitwise CRC-32. -/
def crc32Step (c : Nat) : Nat :=
  if c % 2 = 1 then (c / 2) ^^^ crc32Poly else c / 2

/-- Fold one byte into a running CRC-32 value. -/
def crc32UpdateByte (crc b : Nat) : Nat := crc32Step^[8] (crc ^^^ (b % 256))

/-- Modelled from the spec: the 32-bit cyclic-redundancy checksum over
the non-checksum portion of the plaintext frame (standard CRC-32,
initial value and final xor `0xFFFFFFFF`). -/
def crc32 (bs : List Nat) : Nat :=
  (bs.foldl crc32UpdateByte 0xFFFFFFFF) ^^^ 0xFFFFFFFF

/-- Little-endian byte split of a 32-bit checksum. -/
def crcBytes (c : Nat) : List Nat :=
  [c % 256, c / 2 ^ 8 % 256, c / 2 ^ 16 % 256, c / 2 ^ 24 % 256]

/-- The 12-byte non-checksum portion of the wire frame: magic pair,
version, command, speeds, sequence, and zero padding up to offset 12. -/
def encodeBody (f : ControlFrame) : List Nat :=
  [kMagic0, kMagic1, kProtocolVersion,
   f.command, f.leftSpeed, f.rightSpeed, f.sequence, 0, 0, 0, 0, 0]

/-- Modelled from the spec: `encode` of the missing `ControlProtocol.h`
codec — serialize the frame into the fixed 16-byte buffer, appending the
CRC-32 of the non-checksum portion. -/
def encodeFrame (f : ControlFrame) : List Nat :=
  encodeBody f ++ crcBytes (crc32 (encodeBody f))

/-- Decode failure taxonomy of the codec: bad magic or version, or a
checksum mismatch. -/
inductive DecodeError where
  | ProtocolMismatch | IntegrityError
  deriving Repr, DecidableEq

/-- Modelled from the spec: `decode` of the missing `ControlProtocol.h`
codec — check size, magic pair and version (`ProtocolMismatch` on
failure), recompute and compare the stored CRC-32 (`IntegrityError` on
mismatch), then return the decoded frame; no clamping of speed fields. -/
def decodeFrame (bs : List Nat) : Except DecodeError ControlFrame :=
  match bs with
  | [m0, m1, v, cmd, l, r, seq, p0, p1, p2, p3, p4, c0, c1, c2, c3] =>
    if [m0, m1, v] = [kMagic0, kMagic1, kProtocolVersion] then
      if [c0, c1, c2, c3] =
          crcBytes (crc32 [m0, m1, v, cmd, l, r, seq, p0, p1, p2, p3, p4]) then
        .ok ⟨cmd, l, r, seq⟩
      else .error .IntegrityError
    else .error .ProtocolMismatch
  | _ => .error .ProtocolMismatch

/-- Modelled from the spec: the fixed 256-bit (32-byte) shared key of
the cipher layer, provisioned identically on both ends. -/
def cipherKey : List Nat :=
  [0x60, 0x3D, 0xEB, 0x10, 0x15, 0xCA, 0x71, 0xBE,
   0x2B, 0x73, 0xAE, 0xF0, 0x85, 0x7D, 0x77, 0x81,
   0x1F, 0x35, 0x2C, 0x07, 0x3B, 0x61, 0x08, 0xD7,
   0x2D, 0x98, 0x10, 0xA3, 0x09, 0x14, 0xDF, 0xF4]

/-- The 16 key bytes acting on the single cipher block. -/
def keyStream : List Nat := cipherKey.take 16

/-- Modelled from the spec: the keyed invertible block transform of the
cipher layer. `ControlProtocol.h` is not under `src/`; the spec names
AES-256-CBC with a fixed key and (acceptably, per the spec) a fixed
all-zero IV, under which chaining degenerates to a single-block keyed
bijection. It is modelled here as a keyed byte-wise modular-addition
block transform: a stand-in with the same interface and the same
invertibility contract, not the AES round structure. -/
def encryptBlock (bs : List Nat) : List Nat :=
  List.zipWith (fun p k => (p + k) % 256) bs keyStream

/-- Inverse of `encryptBlock` (the cipher layer's decrypt direction,
same modelling note). -/
def decryptBlock (bs : List Nat) : List Nat :=
  List.zipWith (fun c k => (c + (256 - k % 256)) % 256) bs keyStream

/-- Modelled from the spec: `TankControl::encryptFrame(frame, out, n)`
of the missing `ControlProtocol.h` — fails (returning no ciphertext)
exactly when the buffer size does not match the one-block frame size,
never producing a truncated frame. -/
def encryptFrame (plain : List Nat) (bufSize : Nat) : Option (List Nat) :=
  if bufSize = kFrameSize ∧ plain.length = kFrameSize then
    some (encryptBlock plain)
  else none

/-- Modelled from the spec: the decrypt direction of the cipher layer,
with the same size contract as `encryptFrame`. -/
def decryptFrame (ct : List Nat) (bufSize : Nat) : Option (List Nat) :=
  if bufSize = kFrameSize ∧ ct.length = kFrameSize then
    some (decryptBlock ct)
  else none

/-- Result of one `sendLoRaFrame` call: the boolean returned to the
caller, the plaintext frame that was built, the bytes handed to the
radio (none when encryption failed), and the sender's `sequenceCounter`
after the call. -/
structure SendResult where
  ok : Bool
  frame : ControlFrame
  transmitted : Option (List Nat)
  sequenceCounterAfter : Nat
  deriving Repr, DecidableEq

/-- Embedding of `sendLoRaFrame(cmd, leftSpeed, rightSpeed)` of the gateway sketch:
builds the frame with the current `sequenceCounter` (post-incremented;
`uint8_t`, hence `% 256`), encrypts it into a `kFrameSize` buffer
(`bufSize` embeds `sizeof(encrypted)`, equal to `kFrameSize` in the
source), returns false on encryption failure without touching the
radio, and otherwise writes the ciphertext to the radio and returns
whether `LoRa.endPacket()` reported success (`transportOk`). -/
def sendLoRaFrame (seqCounter : Nat) (cmd : Command) (l r : Nat)
    (bufSize : Nat) (transportOk : Bool) : SendResult :=
  let frame := initFrame (commandCode cmd) l r seqCounter
  let seqAfter := (seqCounter + 1) % 256
  match encryptFrame (encodeFrame frame) bufSize with
  | none => ⟨false, frame, none, seqAfter⟩
  | some enc => ⟨transportOk, frame, some enc, seqAfter⟩

end TankControl

namespace TankShift

open TankControl

/-- State of the `Tank` class (`TankShift.h`): target and current speeds
are `int16_t` (kept as `Int`; all reachable values fit 16 bits),
`rampStep`/`rampInterval` are `uint8_t`, `lastRampTime` is `uint32_t`
milliseconds. Field names drop the `_` prefix of the C++ members. -/
structure Tank where
  targetLeftSpeed : Int
  targetRightSpeed : Int
  currentLeftSpeed : Int
  currentRightSpeed : Int
  rampStep : Nat
  rampInterval : Nat
  lastRampTime : Nat
  deriving Repr, DecidableEq

/-- Member-initializer defaults of the C++ class: all speeds 0, step 10,
interval 10, `lastRampTime` 0. -/
def Tank.init : Tank :=
  { targetLeftSpeed := 0, targetRightSpeed := 0
    currentLeftSpeed := 0, currentRightSpeed := 0
    rampStep := 10, rampInterval := 10, lastRampTime := 0 }

/-- Embedding of `Tank::setSpeed(uint8_t left, uint8_t right)`: update the target
magnitudes, negating each where the existing target is negative. -/
def Tank.setSpeed (t : Tank) (l r : Nat) : Tank :=
  { t with
    targetLeftSpeed := if t.targetLeftSpeed < 0 then -(l : Int) else (l : Int)
    targetRightSpeed := if t.targetRightSpeed < 0 then -(r : Int) else (r : Int) }

/-- Embedding of `Tank::forward()`: both targets become their absolute values. -/
def Tank.forward (t : Tank) : Tank :=
  { t with targetLeftSpeed := |t.targetLeftSpeed|,
           targetRightSpeed := |t.targetRightSpeed| }

/-- Embedding of `Tank::backward()`: both targets become minus their absolute values. -/
def Tank.backward (t : Tank) : Tank :=
  { t with targetLeftSpeed := -|t.targetLeftSpeed|,
           targetRightSpeed := -|t.targetRightSpeed| }

/-- Embedding of `Tank::left()`: left target negative, right target positive. -/
def Tank.left (t : Tank) : Tank :=
  { t with targetLeftSpeed := -|t.targetLeftSpeed|,
           targetRightSpeed := |t.targetRightSpeed| }

/-- Embedding of `Tank::right()`: left target positive, right target negative. -/
def Tank.right (t : Tank) : Tank :=
  { t with targetLeftSpeed := |t.targetLeftSpeed|,
           targetRightSpeed := -|t.targetRightSpeed| }

/-- Embedding of `Tank::stop()`: both targets zero. -/
def Tank.stop (t : Tank) : Tank :=
  { t with targetLeftSpeed := 0, targetRightSpeed := 0 }

/-- Truncating cast of an `Int` to `int16_t`, as performed by the
`(int16_t)` casts in `Tank::update`. -/
def toInt16 (n : Int) : Int := (n + 2 ^ 15) % 2 ^ 16 - 2 ^ 15

/-- One channel of the ramp body of `Tank::update`: move `cur` toward
`target` by `step`, the intermediate sum cast to `int16_t`, clamped at
the target by `min`/`max`. -/
def rampOne (cur target : Int) (step : Nat) : Int :=
  if cur < target then min (toInt16 (cur + step)) target
  else if target < cur then max (toInt16 (cur - step)) target
  else cur

/-- Embedding of `Tank::update()` at time `now` (`uint32_t` milliseconds): return
unchanged unless `now - lastRampTime` (`uint32_t` wrap-around
subtraction; `now` and `lastRampTime` below `2 ^ 32`) has reached
`rampInterval`; otherwise record `now` and ramp both channels
independently. The `driveLeft`/`driveRight` calls write pins only and
do not touch this state. -/
def Tank.update (t : Tank) (now : Nat) : Tank :=
  if (now + 2 ^ 32 - t.lastRampTime) % 2 ^ 32 < t.rampInterval then t
  else
    { t with
      lastRampTime := now
      currentLeftSpeed := rampOne t.currentLeftSpeed t.targetLeftSpeed t.rampStep
      currentRightSpeed := rampOne t.currentRightSpeed t.targetRightSpeed t.rampStep }

/-- Pin levels and PWM duty written by one `driveLeft`/`driveRight`
call: `in1`/`in2` are the two direction pins, `pwm` the duty. -/
structure DriveOutput where
  in1 : Bool
  in2 : Bool
  pwm : Int
  deriving Repr, DecidableEq

/-- Embedding of `Tank::driveLeft(int16_t speed)`: positive drives IN1 HIGH / IN2
LOW with duty `speed`; negative drives IN1 LOW / IN2 HIGH with duty
`-speed`; zero drives both LOW with duty 0. -/
def driveLeft (speed : Int) : DriveOutput :=
  if speed > 0 then ⟨true, false, speed⟩
  else if speed < 0 then ⟨false, true, -speed⟩
  else ⟨false, false, 0⟩

/-- Embedding of `Tank::driveRight(int16_t speed)`: identical structure to
`driveLeft`, on the right-channel pins. -/
def driveRight (speed : Int) : DriveOutput :=
  if speed > 0 then ⟨true, false, speed⟩
  else if speed < 0 then ⟨false, true, -speed⟩
  else ⟨false, false, 0⟩

/-- Modelled from the spec: the receiver firmware (`rx_driver`) that
dispatches an accepted `ControlFrame` to the `Tank` is not under
`src/`. Per the spec, on an accepted command the target magnitudes come
from the frame's speed fields and the sign from the command type, so
the dispatcher applies the frame's speeds via `Tank.setSpeed` and then
the matching direction method of `Tank`; `Stop` calls `Tank.stop`,
`SetSpeed` only `Tank.setSpeed`. The `Tank` methods themselves are
embedded from `TankShift.cpp`. -/
def applyCommand (t : Tank) (cmd : Command) (l r : Nat) : Tank :=
  match cmd with
  | .Stop => t.stop
  | .Forward => (t.setSpeed l r).forward
  | .Backward => (t.setSpeed l r).backward
  | .Left => (t.setSpeed l r).left
  | .Right => (t.setSpeed l r).right
  | .SetSpeed => t.setSpeed l r

end TankShift

namespace Gateway

open TankControl TankShift

/-- Fixed safety-timeout window of the gateway sketch (milliseconds). -/
def COMMAND_TIMEOUT : Nat := 2000

/-- Global control state of the Bluetooth-to-LoRa gateway sketch:
`currentSpeed` (`uint8_t`, default 200), `currentState` string, the
`uint32_t` time of the last Bluetooth command, and the `uint8_t` LoRa
sequence counter. -/
structure GwState where
  currentSpeed : Nat
  currentState : String
  lastCommandTime : Nat
  sequenceCounter : Nat
  deriving Repr, DecidableEq

/-- Gateway globals at boot. -/
def initialGwState : GwState :=
  { currentSpeed := 200, currentState := "STOP"
    lastCommandTime := 0, sequenceCounter := 0 }

/-- Embedding of `handleBluetoothCommand(char cmd)` of the gateway sketch: uppercase
the character, then either record a movement state and request a LoRa
command (returned as `some (command, leftSpeed, rightSpeed)`, both
speeds being the stored `currentSpeed`), or adjust the stored speed.
`+`/`=` add 25 saturating at 255 (`min(255, currentSpeed + 25)` over C
`int` arithmetic); `-`/`_` subtract 25 saturating at 0
(`max(0, currentSpeed - 25)`, i.e. truncated subtraction); `1`/`3`/`9`
set the presets 100/200/255. Info keys and unknown characters leave the
speed untouched. -/
def handleBluetoothCommand (c : Char) (st : GwState) :
    GwState × Option (Command × Nat × Nat) :=
  let cmd := c.toUpper
  if cmd = 'W' ∨ cmd = 'F' ∨ cmd = '8' then
    ({ st with currentState := "FORWARD" },
     some (.Forward, st.currentSpeed, st.currentSpeed))
  else if cmd = 'S' ∨ cmd = 'B' ∨ cmd = '2' then
    ({ st with currentState := "BACKWARD" },
     some (.Backward, st.currentSpeed, st.currentSpeed))
  else if cmd = 'A' ∨ cmd = 'L' ∨ cmd = '4' then
    ({ st with currentState := "LEFT" },
     some (.Left, st.currentSpeed, st.currentSpeed))
  else if cmd = 'D' ∨ cmd = 'R' ∨ cmd = '6' then
    ({ st with currentState := "RIGHT" },
     some (.Right, st.currentSpeed, st.currentSpeed))
  else if cmd = 'X' ∨ cmd = ' ' ∨ cmd = '5' then
    ({ st with currentState := "STOP" },
     some (.Stop, st.currentSpeed, st.currentSpeed))
  else if cmd = '+' ∨ cmd = '=' then
    ({ st with currentSpeed := min 255 (st.currentSpeed + 25) }, none)
  else if cmd = '-' ∨ cmd = '_' then
    ({ st with currentSpeed := st.currentSpeed - 25 }, none)
  else if cmd = '1' then
    ({ st with currentSpeed := 100 }, none)
  else if cmd = '3' then
    ({ st with currentSpeed := 200 }, none)
  else if cmd = '9' then
    ({ st with currentSpeed := 255 }, none)
  else (st, none)

/-- State of the receiver holding the ramp controller and its safety
timer: the `Tank` plus the `uint32_t` time of the last accepted
command. -/
structure RxState where
  tank : Tank
  lastAcceptedTime : Nat
  deriving Repr, DecidableEq

/-- Modelled from the spec: the receiver firmware (`rx_driver`) holding
the safety timer is not under `src/`. Per the spec, a parallel,
independent timer forces `targetSpeed` to zero for both channels when
no valid command has been accepted within the fixed timeout window; it
reads nothing from the radio, so it fires whether the link is silent or
corrupted. Modelled on the pattern of the gateway sketch's own loop
(`millis() - lastCommandTime > COMMAND_TIMEOUT`, `uint32_t` wrap-around
subtraction), forcing the stop through `Tank.stop`. -/
def safetyCheck (st : RxState) (now : Nat) : RxState :=
  if COMMAND_TIMEOUT < (now + 2 ^ 32 - st.lastAcceptedTime) % 2 ^ 32 then
    { st with tank := st.tank.stop }
  else st

end Gateway

/-! ## Helper lemmas -/

section Helpers

open TankControl TankShift Gateway

/-- Absolute value of a cast natural number. -/
theorem abs_natCast_int (n : Nat) : |((n : Int))| = n :=
  abs_of_nonneg (Int.natCast_nonneg n)

/-- Absolute value of a negated cast natural number. -/
theorem abs_neg_natCast_int (n : Nat) : |(-(n : Int))| = n := by
  rw [abs_neg]; exact abs_natCast_int n

/-- Elementwise properties of one `rampOne` step under the speed bounds
maintained by the controller: the move is at most `step` in magnitude
and never crosses the target. -/
theorem rampOne_props (cur target : Int) (step : Nat)
    (h1 : -255 ≤ cur) (h2 : cur ≤ 255) (h3 : -255 ≤ target) (h4 : target ≤ 255)
    (h5 : step ≤ 255) :
    (-(step : Int) ≤ rampOne cur target step - cur ∧
      rampOne cur target step - cur ≤ step) ∧
    (cur ≤ target → cur ≤ rampOne cur target step ∧ rampOne cur target step ≤ target) ∧
    (target ≤ cur → target ≤ rampOne cur target step ∧ rampOne cur target step ≤ cur) := by
  unfold rampOne toInt16
  split_ifs <;>
    refine ⟨⟨?_, ?_⟩, fun h => ⟨?_, ?_⟩, fun h => ⟨?_, ?_⟩⟩ <;>
    (try simp only [min_def, max_def]) <;> (try split_ifs) <;> omega

/-- The 0-to-100 ramp at step 10 stays within `[0, 100]` at every tick. -/
theorem rampOne_iter_bounds (k : Nat) :
    0 ≤ (fun c => rampOne c 100 10)^[k] (0 : Int) ∧
    (fun c => rampOne c 100 10)^[k] (0 : Int) ≤ 100 := by
  induction k with
  | zero => exact ⟨le_refl 0, by norm_num⟩
  | succ k ih =>
    rw [Function.iterate_succ_apply']
    generalize hg : (fun c => rampOne c 100 10)^[k] (0 : Int) = x at ih
    obtain ⟨hx, hx'⟩ := ih
    show 0 ≤ rampOne x 100 10 ∧ rampOne x 100 10 ≤ 100
    unfold rampOne toInt16
    split_ifs <;> (try simp only [min_def, max_def]) <;> (try split_ifs) <;> omega

/-- When the ramp interval has elapsed, `Tank.update` takes the ramp
branch on both channels. -/
theorem update_elapsed (t : Tank) (now : Nat)
    (h : t.rampInterval ≤ (now + 2 ^ 32 - t.lastRampTime) % 2 ^ 32) :
    (t.update now).currentLeftSpeed = rampOne t.currentLeftSpeed t.targetLeftSpeed t.rampStep ∧
    (t.update now).currentRightSpeed = rampOne t.currentRightSpeed t.targetRightSpeed t.rampStep := by
  unfold Tank.update
  rw [if_neg (by omega)]
  exact ⟨rfl, rfl⟩

/-- Per-byte inverse of the keyed modular-addition transform. -/
theorem byte_roundtrip (p k : Nat) (hp : p < 256) :
    ((p + k) % 256 + (256 - k % 256)) % 256 = p := by omega

/-- Keyed byte-wise encryption followed by decryption over the same key
list is the identity on in-range byte lists it fully covers. -/
theorem zip_roundtrip (ks bs : List Nat) (hb : ∀ b ∈ bs, b < 256)
    (hl : bs.length ≤ ks.length) :
    List.zipWith (fun c k => (c + (256 - k % 256)) % 256)
      (List.zipWith (fun p k => (p + k) % 256) bs ks) ks = bs := by
  induction bs generalizing ks with
  | nil => simp
  | cons b bs ih =>
    cases ks with
    | nil => simp at hl
    | cons k ks =>
      simp only [List.zipWith_cons_cons, List.cons.injEq]
      exact ⟨byte_roundtrip b k (hb b (by simp)),
        ih ks (fun x hx => hb x (by simp [hx])) (by simpa using hl)⟩

/-- The cipher layer's decrypt undoes its encrypt on one in-range block. -/
theorem decryptBlock_encryptBlock (bs : List Nat) (hb : ∀ b ∈ bs, b < 256)
    (hl : bs.length ≤ 16) :
    decryptBlock (encryptBlock bs) = bs := by
  unfold decryptBlock encryptBlock
  exact zip_roundtrip keyStream bs hb (by simpa [keyStream, cipherKey] using hl)

/-- Decoding an encoded frame succeeds and returns the frame. -/
theorem decode_encode (f : ControlFrame) : decodeFrame (encodeFrame f) = .ok f := by
  simp [decodeFrame, encodeFrame, encodeBody, crcBytes]

/-- An encoded frame is exactly one cipher block long. -/
theorem encodeFrame_length (f : ControlFrame) : (encodeFrame f).length = 16 := by
  simp [encodeFrame, encodeBody, crcBytes]

/-- Every byte of an encoded initialized frame is in wire range. -/
theorem encodeFrame_bytes_lt (cmd l r seq : Nat) :
    ∀ b ∈ encodeFrame (initFrame cmd l r seq), b < 256 := by
  intro b hb
  simp [encodeFrame, encodeBody, crcBytes, initFrame, kMagic0, kMagic1,
    kProtocolVersion, List.mem_append, List.mem_cons] at hb
  rcases hb with h | h | h | h | h | h | h | h | h | h | h <;> omega

/-- Encryption preserves the one-block length. -/
theorem encryptBlock_length (bs : List Nat) (h : bs.length = 16) :
    (encryptBlock bs).length = 16 := by
  simp [encryptBlock, keyStream, cipherKey, h]

/-- The frame built by `sendLoRaFrame` carries the sequence counter the
call was made with. -/
theorem sendLoRaFrame_frame (seqC : Nat) (cmd : Command) (l r bs : Nat) (tok : Bool) :
    (sendLoRaFrame seqC cmd l r bs tok).frame = initFrame (commandCode cmd) l r seqC := by
  unfold sendLoRaFrame
  cases h : encryptFrame (encodeFrame (initFrame (commandCode cmd) l r seqC)) bs <;> simp [h]

/-- Every `sendLoRaFrame` call advances the sequence counter by one
modulo 256, whether or not it succeeds. -/
theorem sendLoRaFrame_counter (seqC : Nat) (cmd : Command) (l r bs : Nat) (tok : Bool) :
    (sendLoRaFrame seqC cmd l r bs tok).sequenceCounterAfter = (seqC + 1) % 256 := by
  unfold sendLoRaFrame
  cases h : encryptFrame (encodeFrame (initFrame (commandCode cmd) l r seqC)) bs <;> simp [h]

set_option maxHeartbeats 2000000 in
/-- One Bluetooth command keeps the stored speed within the 8-bit
range. -/
theorem handle_speed_le (c : Char) (st : GwState) (h : st.currentSpeed ≤ 255) :
    (handleBluetoothCommand c st).1.currentSpeed ≤ 255 := by
  simp only [handleBluetoothCommand]
  split_ifs <;> dsimp only <;> omega

/-- Any sequence of Bluetooth commands keeps the stored speed within
the 8-bit range. -/
theorem foldl_speed_le (cs : List Char) (st : GwState) (h : st.currentSpeed ≤ 255) :
    (cs.foldl (fun s c => (handleBluetoothCommand c s).1) st).currentSpeed ≤ 255 := by
  induction cs generalizing st with
  | nil => exact h
  | cons c cs ih => exact ih _ (handle_speed_le c st h)

end Helpers

/-! ## Claim theorems -/

section Claims

open TankControl TankShift Gateway

/-- C1: For every accepted command, the dispatcher sets each channel's
target speed instantly, with magnitude taken from the command's speed
fields and sign derived from the command type: Forward makes both
targets positive, Backward both negative, Left makes the left target
negative and the right positive, Right the left positive and the right
negative, and Stop sets both to zero; in particular a Left command with
leftSpeed 150 and rightSpeed 150 yields targets (-150, +150). -/
theorem accepted_command_sets_targets (t : Tank) (l r : Nat) :
    ((applyCommand t .Forward l r).targetLeftSpeed = l ∧
     (applyCommand t .Forward l r).targetRightSpeed = r) ∧
    ((applyCommand t .Backward l r).targetLeftSpeed = -(l : Int) ∧
     (applyCommand t .Backward l r).targetRightSpeed = -(r : Int)) ∧
    ((applyCommand t .Left l r).targetLeftSpeed = -(l : Int) ∧
     (applyCommand t .Left l r).targetRightSpeed = r) ∧
    ((applyCommand t .Right l r).targetLeftSpeed = l ∧
     (applyCommand t .Right l r).targetRightSpeed = -(r : Int)) ∧
    ((applyCommand t .Stop l r).targetLeftSpeed = 0 ∧
     (applyCommand t .Stop l r).targetRightSpeed = 0) ∧
    ((applyCommand t .Left 150 150).targetLeftSpeed = -150 ∧
     (applyCommand t .Left 150 150).targetRightSpeed = 150) := by
  simp only [applyCommand, Tank.setSpeed, Tank.forward, Tank.backward,
    Tank.left, Tank.right, Tank.stop]
  refine ⟨⟨?_, ?_⟩, ⟨?_, ?_⟩, ⟨?_, ?_⟩, ⟨?_, ?_⟩, ⟨?_, ?_⟩, ?_, ?_⟩ <;>
    (try split_ifs) <;> simp [abs_natCast_int, abs_neg_natCast_int]

/-- C2: when at least `rampInterval` milliseconds have elapsed since the
previous tick, one `Tank.update` tick moves each channel's current
speed by at most `rampStep` toward its target, clamped so it never
overshoots the target; and starting from current speed 0 with target
100 and step 10, ten ticks reach exactly 100 without ever exceeding 100
at any tick. -/
theorem ramp_tick_bounded_no_overshoot (t : Tank) (now : Nat)
    (helapsed : t.rampInterval ≤ (now + 2 ^ 32 - t.lastRampTime) % 2 ^ 32)
    (hbounds : t.rampStep ≤ 255 ∧
      (-255 ≤ t.currentLeftSpeed ∧ t.currentLeftSpeed ≤ 255) ∧
      (-255 ≤ t.targetLeftSpeed ∧ t.targetLeftSpeed ≤ 255) ∧
      (-255 ≤ t.currentRightSpeed ∧ t.currentRightSpeed ≤ 255) ∧
      (-255 ≤ t.targetRightSpeed ∧ t.targetRightSpeed ≤ 255)) :
    ((-(t.rampStep : Int) ≤ (t.update now).currentLeftSpeed - t.currentLeftSpeed ∧
      (t.update now).currentLeftSpeed - t.currentLeftSpeed ≤ t.rampStep) ∧
     (t.currentLeftSpeed ≤ t.targetLeftSpeed →
       t.currentLeftSpeed ≤ (t.update now).currentLeftSpeed ∧
       (t.update now).currentLeftSpeed ≤ t.targetLeftSpeed) ∧
     (t.targetLeftSpeed ≤ t.currentLeftSpeed →
       t.targetLeftSpeed ≤ (t.update now).currentLeftSpeed ∧
       (t.update now).currentLeftSpeed ≤ t.currentLeftSpeed)) ∧
    ((-(t.rampStep : Int) ≤ (t.update now).currentRightSpeed - t.currentRightSpeed ∧
      (t.update now).currentRightSpeed - t.currentRightSpeed ≤ t.rampStep) ∧
     (t.currentRightSpeed ≤ t.targetRightSpeed →
       t.currentRightSpeed ≤ (t.update now).currentRightSpeed ∧
       (t.update now).currentRightSpeed ≤ t.targetRightSpeed) ∧
     (t.targetRightSpeed ≤ t.currentRightSpeed →
       t.targetRightSpeed ≤ (t.update now).currentRightSpeed ∧
       (t.update now).currentRightSpeed ≤ t.currentRightSpeed)) ∧
    ((fun c => rampOne c 100 10)^[10] (0 : Int) = 100) ∧
    (∀ k : Nat, (fun c => rampOne c 100 10)^[k] (0 : Int) ≤ 100) := by
  obtain ⟨hs, ⟨hcl1, hcl2⟩, ⟨htl1, htl2⟩, ⟨hcr1, hcr2⟩, ⟨htr1, htr2⟩⟩ := hbounds
  obtain ⟨hL, hR⟩ := update_elapsed t now helapsed
  rw [hL, hR]
  exact ⟨rampOne_props t.currentLeftSpeed t.targetLeftSpeed t.rampStep
      hcl1 hcl2 htl1 htl2 hs,
    rampOne_props t.currentRightSpeed t.targetRightSpeed t.rampStep
      hcr1 hcr2 htr1 htr2 hs,
    by decide,
    fun k => (rampOne_iter_bounds k).2⟩

/-- Witness for C2 at the default-constructed tank (step 10, interval
10, all speeds 0) at time 20 ms. -/
theorem ramp_tick_bounded_no_overshoot_witness :
    (Tank.init.rampInterval ≤ (20 + 2 ^ 32 - Tank.init.lastRampTime) % 2 ^ 32) ∧
    (Tank.init.rampStep ≤ 255 ∧
      (-255 ≤ Tank.init.currentLeftSpeed ∧ Tank.init.currentLeftSpeed ≤ 255) ∧
      (-255 ≤ Tank.init.targetLeftSpeed ∧ Tank.init.targetLeftSpeed ≤ 255) ∧
      (-255 ≤ Tank.init.currentRightSpeed ∧ Tank.init.currentRightSpeed ≤ 255) ∧
      (-255 ≤ Tank.init.targetRightSpeed ∧ Tank.init.targetRightSpeed ≤ 255)) ∧
    (((-(Tank.init.rampStep : Int) ≤
        (Tank.init.update 20).currentLeftSpeed - Tank.init.currentLeftSpeed ∧
       (Tank.init.update 20).currentLeftSpeed - Tank.init.currentLeftSpeed ≤ Tank.init.rampStep) ∧
      (Tank.init.currentLeftSpeed ≤ Tank.init.targetLeftSpeed →
        Tank.init.currentLeftSpeed ≤ (Tank.init.update 20).currentLeftSpeed ∧
        (Tank.init.update 20).currentLeftSpeed ≤ Tank.init.targetLeftSpeed) ∧
      (Tank.init.targetLeftSpeed ≤ Tank.init.currentLeftSpeed →
        Tank.init.targetLeftSpeed ≤ (Tank.init.update 20).currentLeftSpeed ∧
        (Tank.init.update 20).currentLeftSpeed ≤ Tank.init.currentLeftSpeed)) ∧
     ((-(Tank.init.rampStep : Int) ≤
        (Tank.init.update 20).currentRightSpeed - Tank.init.currentRightSpeed ∧
       (Tank.init.update 20).currentRightSpeed - Tank.init.currentRightSpeed ≤ Tank.init.rampStep) ∧
      (Tank.init.currentRightSpeed ≤ Tank.init.targetRightSpeed →
        Tank.init.currentRightSpeed ≤ (Tank.init.update 20).currentRightSpeed ∧
        (Tank.init.update 20).currentRightSpeed ≤ Tank.init.targetRightSpeed) ∧
      (Tank.init.targetRightSpeed ≤ Tank.init.currentRightSpeed →
        Tank.init.targetRightSpeed ≤ (Tank.init.update 20).currentRightSpeed ∧
        (Tank.init.update 20).currentRightSpeed ≤ Tank.init.currentRightSpeed)) ∧
     ((fun c => rampOne c 100 10)^[10] (0 : Int) = 100) ∧
     (∀ k : Nat, (fun c => rampOne c 100 10)^[k] (0 : Int) ≤ 100)) :=
  ⟨by decide, by decide,
    ramp_tick_bounded_no_overshoot Tank.init 20 (by decide) (by decide)⟩

/-- C3: if no valid command has been accepted for longer than the fixed
safety-timeout window, the safety check forces both channels' target
speeds to zero, regardless of the prior receiver state; it takes no
input from the radio, so it fires whether the link is silent or
corrupted. -/
theorem safety_timeout_forces_stop (st : RxState) (now : Nat)
    (h : COMMAND_TIMEOUT < (now + 2 ^ 32 - st.lastAcceptedTime) % 2 ^ 32) :
    (safetyCheck st now).tank.targetLeftSpeed = 0 ∧
    (safetyCheck st now).tank.targetRightSpeed = 0 := by
  unfold safetyCheck
  rw [if_pos h]
  exact ⟨rfl, rfl⟩

/-- Witness for C3: a receiver whose last accepted command was at time
0, checked at 3000 ms against the 2000 ms timeout. -/
theorem safety_timeout_forces_stop_witness :
    (COMMAND_TIMEOUT <
      (3000 + 2 ^ 32 - (RxState.mk Tank.init 0).lastAcceptedTime) % 2 ^ 32) ∧
    ((safetyCheck (RxState.mk Tank.init 0) 3000).tank.targetLeftSpeed = 0 ∧
     (safetyCheck (RxState.mk Tank.init 0) 3000).tank.targetRightSpeed = 0) :=
  ⟨by decide, safety_timeout_forces_stop (RxState.mk Tank.init 0) 3000 (by decide)⟩

/-- C4: for every valid command tuple within field bounds, decoding the
decryption of the encryption of the encoded frame reproduces the
original tuple exactly. -/
theorem frame_roundtrip (cmd l r seq : Nat) (hc : cmd < 6) (hl : l < 256)
    (hr : r < 256) (hs : seq < 256) :
    ((encryptFrame (encodeFrame (initFrame cmd l r seq)) kFrameSize).bind
        (fun ct => decryptFrame ct kFrameSize)).map decodeFrame
      = some (.ok ⟨cmd, l, r, seq⟩) := by
  have hlen := encodeFrame_length (initFrame cmd l r seq)
  have h1 : encryptFrame (encodeFrame (initFrame cmd l r seq)) kFrameSize
      = some (encryptBlock (encodeFrame (initFrame cmd l r seq))) := by
    simp [encryptFrame, hlen, kFrameSize]
  have h2 : decryptFrame (encryptBlock (encodeFrame (initFrame cmd l r seq))) kFrameSize
      = some (decryptBlock (encryptBlock (encodeFrame (initFrame cmd l r seq)))) := by
    simp [decryptFrame, encryptBlock_length _ hlen, kFrameSize]
  rw [h1, Option.some_bind, h2]
  simp only [Option.map_some']
  rw [decryptBlock_encryptBlock _ (encodeFrame_bytes_lt cmd l r seq) (by omega),
    decode_encode]
  simp [initFrame, Nat.mod_eq_of_lt, hl, hr, hs,
    Nat.mod_eq_of_lt (show cmd < 256 by omega)]

/-- Witness for C4: the tuple (Forward, 200, 200, sequence 5). -/
theorem frame_roundtrip_witness :
    (1 < 6 ∧ 200 < 256 ∧ 200 < 256 ∧ 5 < 256) ∧
    ((encryptFrame (encodeFrame (initFrame 1 200 200 5)) kFrameSize).bind
        (fun ct => decryptFrame ct kFrameSize)).map decodeFrame
      = some (.ok ⟨1, 200, 200, 5⟩) :=
  ⟨by decide, frame_roundtrip 1 200 200 5 (by decide) (by decide) (by decide) (by decide)⟩

/-- C5: `setSpeed` changes each channel's target magnitude to the new
value while preserving that channel's current direction sign; in
particular, a SetSpeed with magnitudes (120, 120) arriving while moving
Forward at (80, 80) yields targets (+120, +120). -/
theorem setSpeed_preserves_sign (t : Tank) (l r : Nat) :
    ((t.setSpeed l r).targetLeftSpeed.natAbs = l) ∧
    ((t.setSpeed l r).targetRightSpeed.natAbs = r) ∧
    (0 ≤ t.targetLeftSpeed → (t.setSpeed l r).targetLeftSpeed = l) ∧
    (t.targetLeftSpeed < 0 → (t.setSpeed l r).targetLeftSpeed = -(l : Int)) ∧
    (0 ≤ t.targetRightSpeed → (t.setSpeed l r).targetRightSpeed = r) ∧
    (t.targetRightSpeed < 0 → (t.setSpeed l r).targetRightSpeed = -(r : Int)) ∧
    ((applyCommand (applyCommand t .Forward 80 80) .SetSpeed 120 120).targetLeftSpeed = 120 ∧
     (applyCommand (applyCommand t .Forward 80 80) .SetSpeed 120 120).targetRightSpeed = 120) := by
  refine ⟨?_, ?_, fun h => ?_, fun h => ?_, fun h => ?_, fun h => ?_, ?_, ?_⟩
  case _ => simp only [Tank.setSpeed]; split_ifs <;> omega
  case _ => simp only [Tank.setSpeed]; split_ifs <;> omega
  case _ => simp only [Tank.setSpeed]; rw [if_neg (not_lt.mpr h)]
  case _ => simp only [Tank.setSpeed]; rw [if_pos h]
  case _ => simp only [Tank.setSpeed]; rw [if_neg (not_lt.mpr h)]
  case _ => simp only [Tank.setSpeed]; rw [if_pos h]
  case _ =>
    simp only [applyCommand, Tank.setSpeed, Tank.forward]
    rw [if_neg (not_lt.mpr (abs_nonneg _))]
    norm_num
  case _ =>
    simp only [applyCommand, Tank.setSpeed, Tank.forward]
    rw [if_neg (not_lt.mpr (abs_nonneg _))]
    norm_num

/-- Witness for C5 at a tank moving backward-left (targets (-40, 30))
receiving magnitudes (120, 130). -/
theorem setSpeed_preserves_sign_witness :
    (((Tank.mk (-40) 30 0 0 10 10 0).setSpeed 120 130).targetLeftSpeed.natAbs = 120) ∧
    (((Tank.mk (-40) 30 0 0 10 10 0).setSpeed 120 130).targetRightSpeed.natAbs = 130) ∧
    (0 ≤ (Tank.mk (-40) 30 0 0 10 10 0).targetLeftSpeed →
      ((Tank.mk (-40) 30 0 0 10 10 0).setSpeed 120 130).targetLeftSpeed = 120) ∧
    ((Tank.mk (-40) 30 0 0 10 10 0).targetLeftSpeed < 0 →
      ((Tank.mk (-40) 30 0 0 10 10 0).setSpeed 120 130).targetLeftSpeed = -(120 : Int)) ∧
    (0 ≤ (Tank.mk (-40) 30 0 0 10 10 0).targetRightSpeed →
      ((Tank.mk (-40) 30 0 0 10 10 0).setSpeed 120 130).targetRightSpeed = 130) ∧
    ((Tank.mk (-40) 30 0 0 10 10 0).targetRightSpeed < 0 →
      ((Tank.mk (-40) 30 0 0 10 10 0).setSpeed 120 130).targetRightSpeed = -(130 : Int)) ∧
    ((applyCommand (applyCommand (Tank.mk (-40) 30 0 0 10 10 0) .Forward 80 80)
        .SetSpeed 120 120).targetLeftSpeed = 120 ∧
     (applyCommand (applyCommand (Tank.mk (-40) 30 0 0 10 10 0) .Forward 80 80)
        .SetSpeed 120 120).targetRightSpeed = 120) :=
  setSpeed_preserves_sign (Tank.mk (-40) 30 0 0 10 10 0) 120 130

/-- C6: the sender allocates sequence numbers from a single 8-bit
counter wrapping at 256: the frame built by `sendLoRaFrame` carries the
counter value, the counter advances by one modulo 256 on every call,
consecutive frames carry consecutive sequence numbers modulo 256, and
the first frame after startup (counter 0) carries sequence 0. -/
theorem sequence_counter_monotone (seqC : Nat) (cmd cmd2 : Command)
    (l r l2 r2 bs bs2 : Nat) (tok tok2 : Bool) :
    (sendLoRaFrame seqC cmd l r bs tok).frame.sequence = seqC % 256 ∧
    (sendLoRaFrame seqC cmd l r bs tok).sequenceCounterAfter = (seqC + 1) % 256 ∧
    (sendLoRaFrame (sendLoRaFrame seqC cmd l r bs tok).sequenceCounterAfter
        cmd2 l2 r2 bs2 tok2).frame.sequence
      = ((sendLoRaFrame seqC cmd l r bs tok).frame.sequence + 1) % 256 ∧
    (sendLoRaFrame 0 cmd l r bs tok).frame.sequence = 0 := by
  rw [sendLoRaFrame_counter, sendLoRaFrame_frame, sendLoRaFrame_frame, sendLoRaFrame_frame]
  refine ⟨rfl, rfl, ?_, rfl⟩
  simp only [initFrame]
  omega

/-- C7: `sendLoRaFrame` hands to the transport exactly the encryption
output (so nothing — in particular no truncated frame — when encryption
fails), and returns true exactly when encryption succeeded and the
transport accepted the packet. -/
theorem sendLoRaFrame_reports_failure (seqC : Nat) (cmd : Command)
    (l r bs : Nat) (tok : Bool) :
    (sendLoRaFrame seqC cmd l r bs tok).transmitted
      = encryptFrame (encodeFrame (initFrame (commandCode cmd) l r seqC)) bs ∧
    (sendLoRaFrame seqC cmd l r bs tok).ok
      = ((encryptFrame (encodeFrame (initFrame (commandCode cmd) l r seqC)) bs).isSome
          && tok) := by
  unfold sendLoRaFrame
  cases h : encryptFrame (encodeFrame (initFrame (commandCode cmd) l r seqC)) bs <;>
    simp [h]

/-- C8: for every signed speed in [-255, 255], `driveLeft` and
`driveRight` never set both direction pins of a channel HIGH at once,
the PWM duty always equals the absolute value of the signed speed, and
speed 0 gives duty 0 with both direction pins LOW. -/
theorem drive_pins_exclusive_duty_abs (s : Int) (h1 : -255 ≤ s) (h2 : s ≤ 255) :
    (((driveLeft s).in1 && (driveLeft s).in2) = false) ∧
    (driveLeft s).pwm = |s| ∧
    (((driveRight s).in1 && (driveRight s).in2) = false) ∧
    (driveRight s).pwm = |s| ∧
    (s = 0 → driveLeft s = ⟨false, false, 0⟩ ∧ driveRight s = ⟨false, false, 0⟩) := by
  unfold driveLeft driveRight
  split_ifs with h h' <;>
    simp_all [abs_of_pos, abs_of_neg, abs_of_nonneg] <;> omega

/-- Witness for C8 at signed speed -150. -/
theorem drive_pins_exclusive_duty_abs_witness :
    (-255 ≤ (-150 : Int) ∧ (-150 : Int) ≤ 255) ∧
    ((((driveLeft (-150)).in1 && (driveLeft (-150)).in2) = false) ∧
     (driveLeft (-150)).pwm = |(-150 : Int)| ∧
     (((driveRight (-150)).in1 && (driveRight (-150)).in2) = false) ∧
     (driveRight (-150)).pwm = |(-150 : Int)| ∧
     ((-150 : Int) = 0 →
       driveLeft (-150) = ⟨false, false, 0⟩ ∧ driveRight (-150) = ⟨false, false, 0⟩)) :=
  ⟨by decide, drive_pins_exclusive_duty_abs (-150) (by decide) (by decide)⟩

/-- C9: the gateway's stored speed stays within 0-255 after any
sequence of Bluetooth command characters from boot; the increment
saturates at 255, the decrement saturates at 0, and the presets assign
100, 200 and 255. -/
theorem gateway_speed_invariant (cs : List Char) :
    (cs.foldl (fun s c => (handleBluetoothCommand c s).1) initialGwState).currentSpeed ≤ 255 ∧
    (handleBluetoothCommand '+' { initialGwState with currentSpeed := 255 }).1.currentSpeed = 255 ∧
    (handleBluetoothCommand '-' { initialGwState with currentSpeed := 0 }).1.currentSpeed = 0 ∧
    (handleBluetoothCommand '1' initialGwState).1.currentSpeed = 100 ∧
    (handleBluetoothCommand '3' initialGwState).1.currentSpeed = 200 ∧
    (handleBluetoothCommand '9' initialGwState).1.currentSpeed = 255 := by
  refine ⟨foldl_speed_le cs initialGwState (by norm_num [initialGwState]),
    ?_, ?_, ?_, ?_, ?_⟩ <;> decide

/-- C10: the command-side methods `setSpeed`, `forward`, `backward`,
`left`, `right` and `stop` modify only the target speed fields: the
current speeds, `rampStep`, `rampInterval` and `lastRampTime` are left
unchanged by every one of them. -/
theorem command_methods_touch_targets_only (t : Tank) (l r : Nat) :
    ((t.setSpeed l r).currentLeftSpeed = t.currentLeftSpeed ∧
     (t.setSpeed l r).currentRightSpeed = t.currentRightSpeed ∧
     (t.setSpeed l r).rampStep = t.rampStep ∧
     (t.setSpeed l r).rampInterval = t.rampInterval ∧
     (t.setSpeed l r).lastRampTime = t.lastRampTime) ∧
    (t.forward.currentLeftSpeed = t.currentLeftSpeed ∧
     t.forward.currentRightSpeed = t.currentRightSpeed ∧
     t.forward.rampStep = t.rampStep ∧
     t.forward.rampInterval = t.rampInterval ∧
     t.forward.lastRampTime = t.lastRampTime) ∧
    (t.backward.currentLeftSpeed = t.currentLeftSpeed ∧
     t.backward.currentRightSpeed = t.currentRightSpeed ∧
     t.backward.rampStep = t.rampStep ∧
     t.backward.rampInterval = t.rampInterval ∧
     t.backward.lastRampTime = t.lastRampTime) ∧
    (t.left.currentLeftSpeed = t.currentLeftSpeed ∧
     t.left.currentRightSpeed = t.currentRightSpeed ∧
     t.left.rampStep = t.rampStep ∧
     t.left.rampInterval = t.rampInterval ∧
     t.left.lastRampTime = t.lastRampTime) ∧
    (t.right.currentLeftSpeed = t.currentLeftSpeed ∧
     t.right.currentRightSpeed = t.currentRightSpeed ∧
     t.right.rampStep = t.rampStep ∧
     t.right.rampInterval = t.rampInterval ∧
     t.right.lastRampTime = t.lastRampTime) ∧
    (t.stop.currentLeftSpeed = t.currentLeftSpeed ∧
     t.stop.currentRightSpeed = t.currentRightSpeed ∧
     t.stop.rampStep = t.rampStep ∧
     t.stop.rampInterval = t.rampInterval ∧
     t.stop.lastRampTime = t.lastRampTime) :=
  ⟨⟨rfl, rfl, rfl, rfl, rfl⟩, ⟨rfl, rfl, rfl, rfl, rfl⟩, ⟨rfl, rfl, rfl, rfl, rfl⟩,
   ⟨rfl, rfl, rfl, rfl, rfl⟩, ⟨rfl, rfl, rfl, rfl, rfl⟩, ⟨rfl, rfl, rfl, rfl, rfl⟩⟩

end Claims
